import Mathlib

/-! Batch-wrapper client: the request/response pipeline.

A shallow embedding of `main.go`.  The program is a straight line of effects
(print to standard output, hand one request to the HTTP client, terminate the
process), so every Go function becomes a state-passing function over a `Trace`
that records the effects in order, together with a control outcome that says
whether the function returned or ended the process.

Everything that lives outside `main.go` (the environment, the AWS provider
chain, the file system, the HTTP client, the remote service) is a field of
`World`; the theorems quantify over all worlds.
-/

namespace BatchWrapper

/-! ## Data model (the Go struct types) -/

/-- AwsCreds stores AWS credentials (`type AwsCreds struct`). -/
structure AwsCreds where
  AccessKey : String
  SecretKey : String
  Region : String
  deriving DecidableEq, Repr

/-- SubmitSuccess is returned on successful job submission. -/
structure SubmitSuccess where
  JobID : String
  JobName : String
  deriving DecidableEq, Repr

/-- AuthError is returned on a failed REST request. -/
structure AuthError where
  Error : String
  Exception : String
  deriving DecidableEq, Repr

/-- The two result targets the program registers with `SetResult`. -/
inductive ResultTarget where
  | AuthSuccess
  | SubmitSuccess
  deriving DecidableEq, Repr

/-- A `resty.Request` as the program configures it; `Method` and `URL` are
filled in by `Post`. -/
structure Request where
  UserInfo : Option (String × String)
  Error : Bool
  Header : List (String × String)
  Body : String
  Result : Option ResultTarget
  Method : String
  URL : String
  deriving DecidableEq, Repr

/-- What the program reads off a `resty.Response`: `StatusCode()`, `Body()`,
`Error().(*AuthError)` and `Result().(*SubmitSuccess)`. -/
structure Response where
  StatusCode : Int
  Body : String
  Error : AuthError
  Result : SubmitSuccess
  deriving DecidableEq, Repr

/-- The value of `cfg.Credentials.Retrieve()`. -/
structure Credentials where
  AccessKeyID : String
  SecretAccessKey : String
  deriving DecidableEq, Repr

/-- The value of `external.LoadDefaultAWSConfig()`: the region and the outcome
of retrieving the credentials from it. -/
structure AwsConfig where
  Region : String
  Retrieve : Except String Credentials

/-- Everything outside `main.go` the program consults.  `ReadFile` and `Post`
return Go pairs `(value, err)`, with `none` for a nil error. -/
structure World where
  LookupEnv : String → Option String
  LoadDefaultAWSConfig : Except String AwsConfig
  GOOS : String
  AppendCertsFromPEM : String → Bool
  ReadFile : String → String × Option String
  Post : Request → Response × Option String

/-- The validated command line: the selected command with its flag values. -/
inductive Command where
  | cancel (jobID reason : String)
  | terminate (jobID reason : String)
  | submit (cliInputJSON : String)
  deriving DecidableEq, Repr

/-- The package-level variables of `main.go`. -/
structure Globals where
  cancelJobID : String
  cancelReason : String
  terminateJobID : String
  terminateReason : String
  submitCliInputJSON : String
  creds : AwsCreds
  url : String
  deriving DecidableEq, Repr

/-! ## Effects -/

/-- The observable effects of a run so far: the writes to standard output and
the requests handed to the HTTP client, both in order. -/
structure Trace where
  out : List String
  requests : List Request
  deriving DecidableEq, Repr

/-- How a Go function ended: it returned, called `os.Exit`, or panicked. -/
inductive Ctl (α : Type) where
  | ret (a : α)
  | exit (code : Nat)
  | panicked (msg : String)
  deriving DecidableEq, Repr

/-- A Go procedure: from the trace so far to its outcome and the new trace. -/
def Proc (α : Type) : Type := Trace → Ctl α × Trace

/-- Return without effect. -/
def Proc.pure {α : Type} (a : α) : Proc α := fun t => (Ctl.ret a, t)

/-- Sequencing: the continuation runs only if the first part returned. -/
def Proc.bind {α β : Type} (p : Proc α) (f : α → Proc β) : Proc β := fun t =>
  match p t with
  | (Ctl.ret a, t1) => f a t1
  | (Ctl.exit c, t1) => (Ctl.exit c, t1)
  | (Ctl.panicked m, t1) => (Ctl.panicked m, t1)

instance : Monad Proc where
  pure := Proc.pure
  bind := Proc.bind

/-- The text `fmt.Println` writes for string operands: the operands separated
by single spaces, then a newline. -/
def Sprintln : List String → String
  | [] => "\n"
  | [a] => a ++ "\n"
  | a :: b :: rest => a ++ " " ++ Sprintln (b :: rest)

/-- Expansion of a format: `%s` takes the next operand (`%!s(MISSING)` when
none is left), `%%` is a percent sign, every other character is copied. -/
def SprintfAux : List Char → List String → List Char
  | '%' :: 's' :: fmt, a :: args => a.data ++ SprintfAux fmt args
  | '%' :: 's' :: fmt, [] => "%!s(MISSING)".data ++ SprintfAux fmt []
  | '%' :: '%' :: fmt, args => '%' :: SprintfAux fmt args
  | c :: fmt, args => c :: SprintfAux fmt args
  | [], _ => []

/-- The text `fmt.Sprintf` builds for a format whose only verb is `%s`, with
exactly as many string operands as verbs. -/
def Sprintf (format : String) (args : List String) : String :=
  String.mk (SprintfAux format.data args)

/-- Write one `fmt.Println` line to standard output. -/
def Println (args : List String) : Proc Unit := fun t =>
  (Ctl.ret (), ⟨t.out ++ [Sprintln args], t.requests⟩)

/-- Write one `fmt.Printf` text to standard output. -/
def Printf (format : String) (args : List String) : Proc Unit := fun t =>
  (Ctl.ret (), ⟨t.out ++ [Sprintf format args], t.requests⟩)

/-- End the process with the given code (`os.Exit`). -/
def osExit {α : Type} (code : Nat) : Proc α := fun t => (Ctl.exit code, t)

/-- Abort with a panic. -/
def goPanic {α : Type} (msg : String) : Proc α := fun t => (Ctl.panicked msg, t)

/-- Hand the request to the HTTP client as a POST to `url` and receive the
client's `(resp, err)`. -/
def Request.Post (w : World) (req : Request) (url : String) :
    Proc (Response × Option String) := fun t =>
  let sent : Request := ⟨req.UserInfo, req.Error, req.Header, req.Body, req.Result, "POST", url⟩
  (Ctl.ret (w.Post sent), ⟨t.out, t.requests ++ [sent]⟩)

/-- A fresh request (`resty.R()`). -/
def restyR : Request := ⟨none, false, [], "", none, "", ""⟩

def Request.SetBasicAuth (req : Request) (username password : String) : Request :=
  ⟨some (username, password), req.Error, req.Header, req.Body, req.Result, req.Method, req.URL⟩

def Request.SetError (req : Request) : Request :=
  ⟨req.UserInfo, true, req.Header, req.Body, req.Result, req.Method, req.URL⟩

def Request.SetHeader (req : Request) (header value : String) : Request :=
  ⟨req.UserInfo, req.Error, req.Header ++ [(header, value)], req.Body, req.Result, req.Method,
    req.URL⟩

def Request.SetBody (req : Request) (body : String) : Request :=
  ⟨req.UserInfo, req.Error, req.Header, body, req.Result, req.Method, req.URL⟩

def Request.SetResult (req : Request) (res : ResultTarget) : Request :=
  ⟨req.UserInfo, req.Error, req.Header, req.Body, some res, req.Method, req.URL⟩

/-! ## The functions of `main.go` -/

/-- Resolve the credentials: `getAwsCreds`. -/
def getAwsCreds (w : World) : Except String AwsCreds :=
  match w.LoadDefaultAWSConfig with
  | Except.error _ => Except.error "failed to load default AWS config"
  | Except.ok cfg =>
    match cfg.Retrieve with
    | Except.error _ => Except.error "failed to load AWS credentials"
    | Except.ok creds => Except.ok ⟨creds.AccessKeyID, creds.SecretAccessKey, cfg.Region⟩

/-- Code common to all requests: `getRequest`. -/
def getRequest (g : Globals) : Request :=
  ((restyR.SetBasicAuth g.creds.AccessKey g.creds.SecretKey).SetError).SetHeader
    "Content-type" "application/json"

/-- Common error-handling code: `handleError`. -/
def handleError (resp : Response) : Proc Unit := do
  let rerr := resp.Error
  if rerr.Exception = "" ∧ rerr.Error = "" then
    Println ["Got error:", resp.Body]
  else
    Println ["Wrapper threw an error."]
    Println ["Exception:", rerr.Exception]
    Println ["Message:", rerr.Error]
  osExit 1

/-- Submit a job: `submitFunc`. -/
def submitFunc (g : Globals) (w : World) : Proc Unit := do
  let (b, readErr) := w.ReadFile g.submitCliInputJSON
  match readErr with
  | some e => Println [e]
  | none => pure ()
  let jsonStr := b
  let (resp, err) ←
    (((getRequest g).SetBody jsonStr).SetResult ResultTarget.SubmitSuccess).Post w
      (Sprintf "%s/submit_job" [g.url])
  match err with
  | some e =>
    Println [e]
    osExit 1
  | none => pure ()
  if resp.StatusCode ≠ 200 then
    handleError resp
  let ret := resp.Result
  Printf "\x7b\n  \"jobId\": \"%s\"\n  \"jobName\": \"%s\"\n \x7d\n " [ret.JobID, ret.JobName]

/-- Terminate a job: `terminateFunc`. -/
def terminateFunc (g : Globals) (w : World) : Proc Unit := do
  let (resp, err) ←
    (((getRequest g).SetBody
        (Sprintf "\x7b\"jobId\": \"%s\", \"reason\": \"%s\"\x7d"
          [g.terminateJobID, g.terminateReason])).SetResult ResultTarget.AuthSuccess).Post w
      (Sprintf "%s/terminate_job" [g.url])
  match err with
  | some e =>
    Println [e]
    osExit 1
  | none => pure ()
  if resp.StatusCode ≠ 200 then
    handleError resp
  Println ["\x7b\x7d"]

/-- Cancel a job: `cancelFunc`. -/
def cancelFunc (g : Globals) (w : World) : Proc Unit := do
  let (resp, err) ←
    (((getRequest g).SetBody
        (Sprintf "\x7b\"jobId\": \"%s\", \"reason\": \"%s\"\x7d"
          [g.cancelJobID, g.cancelReason])).SetResult ResultTarget.AuthSuccess).Post w
      (Sprintf "%s/terminate_job" [g.url])
  match err with
  | some e =>
    Println [e]
    osExit 1
  | none => pure ()
  if resp.StatusCode ≠ 200 then
    handleError resp
  Println ["\x7b\x7d"]

/-- The package-level variables after the command line has been parsed: the
flags of the selected command hold their values, everything else is still at
its zero value. -/
def Command.globals : Command → Globals
  | Command.cancel jobID reason => ⟨jobID, reason, "", "", "", ⟨"", "", ""⟩, ""⟩
  | Command.terminate jobID reason => ⟨"", "", jobID, reason, "", ⟨"", "", ""⟩, ""⟩
  | Command.submit cliInputJSON => ⟨"", "", "", "", cliInputJSON, ⟨"", "", ""⟩, ""⟩

/-- The function `main` selects for the parsed command (the `switch`). -/
def Command.func : Command → Globals → World → Proc Unit
  | Command.terminate _ _ => terminateFunc
  | Command.cancel _ _ => cancelFunc
  | Command.submit _ => submitFunc

def Globals.setUrl (g : Globals) (url : String) : Globals :=
  ⟨g.cancelJobID, g.cancelReason, g.terminateJobID, g.terminateReason, g.submitCliInputJSON,
    g.creds, url⟩

def Globals.setCreds (g : Globals) (creds : AwsCreds) : Globals :=
  ⟨g.cancelJobID, g.cancelReason, g.terminateJobID, g.terminateReason, g.submitCliInputJSON,
    creds, g.url⟩

/-- The certificate bundle `rootPEM` (see the comment in `main`). -/
def rootPEM : String :=
  String.intercalate "\n"
   ["",
    "-----BEGIN CERTIFICATE-----",
    "MIIE0DCCA7igAwIBAgIBBzANBgkqhkiG9w0BAQsFADCBgzELMAkGA1UEBhMCVVMx",
    "EDAOBgNVBAgTB0FyaXpvbmExEzARBgNVBAcTClNjb3R0c2RhbGUxGjAYBgNVBAoT",
    "EUdvRGFkZHkuY29tLCBJbmMuMTEwLwYDVQQDEyhHbyBEYWRkeSBSb290IENlcnRp",
    "ZmljYXRlIEF1dGhvcml0eSAtIEcyMB4XDTExMDUwMzA3MDAwMFoXDTMxMDUwMzA3",
    "MDAwMFowgbQxCzAJBgNVBAYTAlVTMRAwDgYDVQQIEwdBcml6b25hMRMwEQYDVQQH",
    "EwpTY290dHNkYWxlMRowGAYDVQQKExFHb0RhZGR5LmNvbSwgSW5jLjEtMCsGA1UE",
    "CxMkaHR0cDovL2NlcnRzLmdvZGFkZHkuY29tL3JlcG9zaXRvcnkvMTMwMQYDVQQD",
    "EypHbyBEYWRkeSBTZWN1cmUgQ2VydGlmaWNhdGUgQXV0aG9yaXR5IC0gRzIwggEi",
    "MA0GCSqGSIb3DQEBAQUAA4IBDwAwggEKAoIBAQC54MsQ1K92vdSTYuswZLiBCGzD",
    "BNliF44v/z5lz4/OYuY8UhzaFkVLVat4a2ODYpDOD2lsmcgaFItMzEUz6ojcnqOv",
    "K/6AYZ15V8TPLvQ/MDxdR/yaFrzDN5ZBUY4RS1T4KL7QjL7wMDge87Am+GZHY23e",
    "cSZHjzhHU9FGHbTj3ADqRay9vHHZqm8A29vNMDp5T19MR/gd71vCxJ1gO7GyQ5HY",
    "pDNO6rPWJ0+tJYqlxvTV0KaudAVkV4i1RFXULSo6Pvi4vekyCgKUZMQWOlDxSq7n",
    "eTOvDCAHf+jfBDnCaQJsY1L6d8EbyHSHyLmTGFBUNUtpTrw700kuH9zB0lL7AgMB",
    "AAGjggEaMIIBFjAPBgNVHRMBAf8EBTADAQH/MA4GA1UdDwEB/wQEAwIBBjAdBgNV",
    "HQ4EFgQUQMK9J47MNIMwojPX+2yz8LQsgM4wHwYDVR0jBBgwFoAUOpqFBxBnKLbv",
    "9r0FQW4gwZTaD94wNAYIKwYBBQUHAQEEKDAmMCQGCCsGAQUFBzABhhhodHRwOi8v",
    "b2NzcC5nb2RhZGR5LmNvbS8wNQYDVR0fBC4wLDAqoCigJoYkaHR0cDovL2NybC5n",
    "b2RhZGR5LmNvbS9nZHJvb3QtZzIuY3JsMEYGA1UdIAQ/MD0wOwYEVR0gADAzMDEG",
    "CCsGAQUFBwIBFiVodHRwczovL2NlcnRzLmdvZGFkZHkuY29tL3JlcG9zaXRvcnkv",
    "MA0GCSqGSIb3DQEBCwUAA4IBAQAIfmyTEMg4uJapkEv/oV9PBO9sPpyIBslQj6Zz",
    "91cxG7685C/b+LrTW+C05+Z5Yg4MotdqY3MxtfWoSKQ7CC2iXZDXtHwlTxFWMMS2",
    "RJ17LJ3lXubvDGGqv+QqG+6EnriDfcFDzkSnE3ANkR/0yBOtg2DZ2HKocyQetawi",
    "DsoXiWJYRBuriSUBAA/NxBti21G00w9RKpv0vHP8ds42pM3Z2Czqrpv1KrKQ0U11",
    "GIo/ikGQI31bS/6kA1ibRrLDYGCD+H1QQc7CoZDDu+8CL9IVVO5EFdkKrqeKM+2x",
    "LXY2JtwE65/3YR8V3Idv7kaWKK2hJn0KCacuBKONvPi8BDAB",
    "-----END CERTIFICATE-----",
    "-----BEGIN CERTIFICATE-----",
    "MIIDxTCCAq2gAwIBAgIBADANBgkqhkiG9w0BAQsFADCBgzELMAkGA1UEBhMCVVMx",
    "EDAOBgNVBAgTB0FyaXpvbmExEzARBgNVBAcTClNjb3R0c2RhbGUxGjAYBgNVBAoT",
    "EUdvRGFkZHkuY29tLCBJbmMuMTEwLwYDVQQDEyhHbyBEYWRkeSBSb290IENlcnRp",
    "ZmljYXRlIEF1dGhvcml0eSAtIEcyMB4XDTA5MDkwMTAwMDAwMFoXDTM3MTIzMTIz",
    "NTk1OVowgYMxCzAJBgNVBAYTAlVTMRAwDgYDVQQIEwdBcml6b25hMRMwEQYDVQQH",
    "EwpTY290dHNkYWxlMRowGAYDVQQKExFHb0RhZGR5LmNvbSwgSW5jLjExMC8GA1UE",
    "AxMoR28gRGFkZHkgUm9vdCBDZXJ0aWZpY2F0ZSBBdXRob3JpdHkgLSBHMjCCASIw",
    "DQYJKoZIhvcNAQEBBQADggEPADCCAQoCggEBAL9xYgjx+lk09xvJGKP3gElY6SKD",
    "E6bFIEMBO4Tx5oVJnyfq9oQbTqC023CYxzIBsQU+B07u9PpPL1kwIuerGVZr4oAH",
    "/PMWdYA5UXvl+TW2dE6pjYIT5LY/qQOD+qK+ihVqf94Lw7YZFAXK6sOoBJQ7Rnwy",
    "DfMAZiLIjWltNowRGLfTshxgtDj6AozO091GB94KPutdfMh8+7ArU6SSYmlRJQVh",
    "GkSBjCypQ5Yj36w6gZoOKcUcqeldHraenjAKOc7xiID7S13MMuyFYkMlNAJWJwGR",
    "tDtwKj9useiciAF9n9T521NtYJ2/LOdYq7hfRvzOxBsDPAnrSTFcaUaz4EcCAwEA",
    "AaNCMEAwDwYDVR0TAQH/BAUwAwEB/zAOBgNVHQ8BAf8EBAMCAQYwHQYDVR0OBBYE",
    "FDqahQcQZyi27/a9BUFuIMGU2g/eMA0GCSqGSIb3DQEBCwUAA4IBAQCZ21151fmX",
    "WWcDYfF+OwYxdS2hII5PZYe096acvNjpL9DbWu7PdIxztDhC2gV7+AJ1uP2lsdeu",
    "9tfeE8tTEH6KRtGX+rcuKxGrkLAngPnon1rpN5+r5N9ss4UXnT3ZJE95kTXWXwTr",
    "gIOrmgIttRD02JDHBHNA7XIloKmf7J6raBKZV8aPEjoJpL1E/QYVN8Gb5DKj7Tjo",
    "2GTzLH4U/ALqn83/B2gX2yKQOC16jdFU8WnjXzPKej17CuPKf1855eJ1usV2GDPO",
    "LPAvTK33sefOT6jEm0pUBsV/fdUID+Ic/n4XuKxe9tQWskMJDE32p2u0mYRlynqI",
    "4uJEvlz36hz1",
    "-----END CERTIFICATE-----"]

/-- The program: `main`, started on a parsed command line.  The call
`resty.SetTLSClientConfig` only changes how the client checks the server and
leaves no mark in the trace. -/
def main (cmd : Command) (w : World) : Proc Unit := do
  let g := cmd.globals
  let f := cmd.func
  let g :=
    match w.LookupEnv "FREDHUTCH_BATCH_WRAPPER_SERVER_URL" with
    | some value => g.setUrl value
    | none => g.setUrl "https://batch-dashboard.fhcrc.org"
  match getAwsCreds w with
  | Except.error err =>
    Println [err]
    osExit 1
  | Except.ok creds0 =>
    let g := g.setCreds creds0
    if w.GOOS = "darwin" then
      let ok := w.AppendCertsFromPEM rootPEM
      if !ok then
        goPanic "failed to parse root certificate"
    f g w

/-- What an observer sees of a finished process. -/
structure Run where
  out : List String
  requests : List Request
  exitCode : Nat
  deriving DecidableEq, Repr

/-- The exit code of the process: 0 when `main` returns, the argument of
`os.Exit`, 2 after a panic. -/
def Ctl.exitCode {α : Type} : Ctl α → Nat
  | Ctl.ret _ => 0
  | Ctl.exit code => code
  | Ctl.panicked _ => 2

/-- Run a procedure as a whole process, from the empty trace. -/
def Proc.run (p : Proc Unit) : Run :=
  let r := p ⟨[], []⟩
  ⟨r.2.out, r.2.requests, r.1.exitCode⟩

/-! ## Names for what the theorems talk about -/

/-- The request `terminateFunc` is expected to hand to the HTTP client. -/
def terminateRequest (g : Globals) : Request :=
  ⟨some (g.creds.AccessKey, g.creds.SecretKey), true, [("Content-type", "application/json")],
    "\x7b\"jobId\": \"" ++ g.terminateJobID ++ "\", \"reason\": \"" ++ g.terminateReason ++ "\"\x7d",
    some ResultTarget.AuthSuccess, "POST", g.url ++ "/terminate_job"⟩

/-- The request `cancelFunc` is expected to hand to the HTTP client. -/
def cancelRequest (g : Globals) : Request :=
  ⟨some (g.creds.AccessKey, g.creds.SecretKey), true, [("Content-type", "application/json")],
    "\x7b\"jobId\": \"" ++ g.cancelJobID ++ "\", \"reason\": \"" ++ g.cancelReason ++ "\"\x7d",
    some ResultTarget.AuthSuccess, "POST", g.url ++ "/terminate_job"⟩

/-- The request `submitFunc` is expected to hand to the HTTP client: its body
is whatever bytes `ReadFile` returned. -/
def submitRequest (g : Globals) (w : World) : Request :=
  ⟨some (g.creds.AccessKey, g.creds.SecretKey), true, [("Content-type", "application/json")],
    (w.ReadFile g.submitCliInputJSON).1,
    some ResultTarget.SubmitSuccess, "POST", g.url ++ "/submit_job"⟩

/-- What `submitFunc` writes before the request: the read error, if any. -/
def readErrorLines (g : Globals) (w : World) : List String :=
  match (w.ReadFile g.submitCliInputJSON).2 with
  | some e => [e ++ "\n"]
  | none => []

/-- The lines expected from `handleError`. -/
def errorLines (resp : Response) : List String :=
  if resp.Error.Error = "" ∧ resp.Error.Exception = "" then
    ["Got error: " ++ resp.Body ++ "\n"]
  else
    ["Wrapper threw an error.\n", "Exception: " ++ resp.Error.Exception ++ "\n",
      "Message: " ++ resp.Error.Error ++ "\n"]

/-- The success block of `submit`. -/
def submitBlock (ret : SubmitSuccess) : String :=
  "\x7b\n  \"jobId\": \"" ++ ret.JobID ++ "\"\n  \"jobName\": \"" ++ ret.JobName ++ "\"\n \x7d\n "

/-- The base URL `main` settles on. -/
def serverURL (w : World) : String :=
  match w.LookupEnv "FREDHUTCH_BATCH_WRAPPER_SERVER_URL" with
  | some value => value
  | none => "https://batch-dashboard.fhcrc.org"

/-- The package-level variables at the moment `main` calls the selected
function. -/
def mainGlobals (cmd : Command) (w : World) (creds : AwsCreds) : Globals :=
  (cmd.globals.setUrl (serverURL w)).setCreds creds

/-- The path of the endpoint each command is expected to use. -/
def Command.endpoint : Command → String
  | Command.submit _ => "/submit_job"
  | Command.cancel _ _ => "/terminate_job"
  | Command.terminate _ _ => "/terminate_job"

/-- The request each command is expected to hand to the HTTP client. -/
def Command.request (cmd : Command) (g : Globals) (w : World) : Request :=
  match cmd with
  | Command.submit _ => submitRequest g w
  | Command.cancel _ _ => cancelRequest g
  | Command.terminate _ _ => terminateRequest g

/-- What each command writes before its request. -/
def Command.preLines (cmd : Command) (g : Globals) (w : World) : List String :=
  match cmd with
  | Command.submit _ => readErrorLines g w
  | Command.cancel _ _ => []
  | Command.terminate _ _ => []

/-- The documented success output of each command. -/
def Command.successOutput (cmd : Command) (resp : Response) : String :=
  match cmd with
  | Command.submit _ => submitBlock resp.Result
  | Command.cancel _ _ => "\x7b\x7d\n"
  | Command.terminate _ _ => "\x7b\x7d\n"

/-- A world for worked examples: no URL override, credentials `AKID`/`SECRET`
in `us-west-2`, not a Mac; every file read gives `file` and every request is
answered with `answer`. -/
def exampleWorld (file : String × Option String) (answer : Response × Option String) : World :=
  ⟨fun _ => none, Except.ok ⟨"us-west-2", Except.ok ⟨"AKID", "SECRET"⟩⟩, "linux", fun _ => true,
    fun _ => file, fun _ => answer⟩

/-- A world in which the provider chain has no credentials. -/
def noCredsWorld : World :=
  ⟨fun _ => none, Except.ok ⟨"us-west-2", Except.error "no providers"⟩, "linux", fun _ => true,
    fun _ => ("", none), fun _ => (⟨200, "", ⟨"", ""⟩, ⟨"", ""⟩⟩, none)⟩

/-- The response of scenario 4: status 500 with an empty body, so that no
error field is set. -/
def blank500 : Response := ⟨500, "", ⟨"", ""⟩, ⟨"", ""⟩⟩

/-- A rejection whose error object is only partly filled in. -/
def partial403 : Response :=
  ⟨403, "\x7b\"error\":\"not authorized\"\x7d", ⟨"not authorized", ""⟩, ⟨"", ""⟩⟩

/-- The answer of scenario 1: status 200 with job `123` named `demo-job`. -/
def accepted200 : Response :=
  ⟨200, "\x7b\"jobId\":\"123\",\"jobName\":\"demo-job\"\x7d", ⟨"", ""⟩, ⟨"123", "demo-job"⟩⟩

/-- The credentials `exampleWorld` resolves. -/
def exampleCreds : AwsCreds := ⟨"AKID", "SECRET", "us-west-2"⟩

/-- A world in which every request fails in transport with `detail`. -/
def unreachableWorld (detail : String) : World :=
  exampleWorld ("doc", none) (blank500, some detail)

/-- The world `w` with the responses replaced by `answer`, the transport
errors kept. -/
def World.withResponses (w : World) (answer : Request → Response) : World :=
  ⟨w.LookupEnv, w.LoadDefaultAWSConfig, w.GOOS, w.AppendCertsFromPEM, w.ReadFile,
    fun req => (answer req, (w.Post req).2)⟩

/-- A world in which reading the input file fails part-way: `ReadFile` returns
the bytes read so far together with the error. -/
def partialReadWorld : World :=
  exampleWorld ("\x7b\"jobDef", some "read job.json: input/output error") (accepted200, none)

/-- A world in which the input file cannot be opened: `ReadFile` returns no
bytes and the error. -/
def openFailsWorld : World :=
  exampleWorld ("", some "open job.json: permission denied") (accepted200, none)

/-! ## A reference reading of JSON objects with string members

Used to say what it means for a request body to be the JSON serialisation of
`jobId` and `reason` (RFC 8259, restricted to objects whose values are
strings; an escaped surrogate half is read as the character `Char.ofNat`
gives). -/

/-- JSON insignificant whitespace. -/
def jsonWhitespace (c : Char) : Bool :=
  c = ' ' || c = '\t' || c = '\n' || c = '\r'

/-- Drop leading whitespace. -/
def jsonSkip : List Char → List Char
  | [] => []
  | c :: cs => if jsonWhitespace c then jsonSkip cs else c :: cs

/-- The value of a hexadecimal digit. -/
def jsonHex (c : Char) : Option Nat :=
  if '0' ≤ c ∧ c ≤ '9' then some (c.toNat - 48)
  else if 'a' ≤ c ∧ c ≤ 'f' then some (c.toNat - 87)
  else if 'A' ≤ c ∧ c ≤ 'F' then some (c.toNat - 55)
  else none

/-- The character a two-character escape stands for. -/
def jsonEscape : Char → Option Char
  | '"' => some '"'
  | '\\' => some '\\'
  | '/' => some '/'
  | 'b' => some (Char.ofNat 8)
  | 'f' => some (Char.ofNat 12)
  | 'n' => some '\n'
  | 'r' => some '\r'
  | 't' => some '\t'
  | _ => none

/-- Read the inside of a JSON string, from just after the opening quote up to
and including the closing quote: the decoded characters and the rest of the
input.  Unescaped control characters, unknown escapes and an unterminated
string are rejected. -/
def jsonChars : List Char → Option (List Char × List Char)
  | [] => none
  | '"' :: rest => some ([], rest)
  | '\\' :: [] => none
  | '\\' :: 'u' :: a :: b :: c :: d :: rest =>
    match jsonHex a, jsonHex b, jsonHex c, jsonHex d, jsonChars rest with
    | some x3, some x2, some x1, some x0, some (s, r) =>
      some (Char.ofNat (((x3 * 16 + x2) * 16 + x1) * 16 + x0) :: s, r)
    | _, _, _, _, _ => none
  | '\\' :: e :: rest =>
    match jsonEscape e, jsonChars rest with
    | some x, some (s, r) => some (x :: s, r)
    | _, _ => none
  | c :: rest =>
    if c.toNat < 32 then none
    else
      match jsonChars rest with
      | some (s, r) => some (c :: s, r)
      | none => none

/-- Read a JSON string. -/
def jsonString : List Char → Option (List Char × List Char)
  | '"' :: rest => jsonChars rest
  | _ => none

/-- Read the members of an object whose values are strings, up to the closing
brace and the end of the input. -/
def jsonMembers : Nat → List Char → Option (List (String × String))
  | 0, _ => none
  | fuel + 1, cs =>
    match jsonString cs with
    | none => none
    | some (k, r1) =>
      match jsonSkip r1 with
      | ':' :: r2 =>
        match jsonString (jsonSkip r2) with
        | none => none
        | some (v, r3) =>
          match jsonSkip r3 with
          | ',' :: r4 =>
            match jsonMembers fuel (jsonSkip r4) with
            | some ms => some ((String.mk k, String.mk v) :: ms)
            | none => none
          | '}' :: r4 => if jsonSkip r4 = [] then some [(String.mk k, String.mk v)] else none
          | _ => none
      | _ => none

/-- Reference reading of a JSON text as an object whose values are all
strings: its members in order, or `none` when the text is not such an
object. -/
def parseStringObject (s : String) : Option (List (String × String)) :=
  match jsonSkip s.data with
  | '{' :: r =>
    match jsonSkip r with
    | '}' :: r2 => if jsonSkip r2 = [] then some [] else none
    | cs => jsonMembers cs.length cs
  | _ => none

/-- A character that stands for itself inside a JSON string: not a quote, not
a backslash, not a control character. -/
def jsonPlain (c : Char) : Prop := c ≠ '"' ∧ c ≠ '\\' ∧ 32 ≤ c.toNat

instance (c : Char) : Decidable (jsonPlain c) := by
  unfold jsonPlain
  infer_instance

/-! ## Unfolding lemmas -/

theorem Sprintf_submit_url (u : String) : Sprintf "%s/submit_job" [u] = u ++ "/submit_job" := by
  apply String.ext
  simp [Sprintf, SprintfAux]

theorem Sprintf_terminate_url (u : String) :
    Sprintf "%s/terminate_job" [u] = u ++ "/terminate_job" := by
  apply String.ext
  simp [Sprintf, SprintfAux]

theorem Sprintf_body (j r : String) :
    Sprintf "\x7b\"jobId\": \"%s\", \"reason\": \"%s\"\x7d" [j, r] =
      "\x7b\"jobId\": \"" ++ j ++ "\", \"reason\": \"" ++ r ++ "\"\x7d" := by
  apply String.ext
  simp [Sprintf, SprintfAux]

theorem Sprintf_block (ret : SubmitSuccess) :
    Sprintf "\x7b\n  \"jobId\": \"%s\"\n  \"jobName\": \"%s\"\n \x7d\n "
      [ret.JobID, ret.JobName] = submitBlock ret := by
  apply String.ext
  simp [Sprintf, SprintfAux, submitBlock]

theorem Sprintln_one (a : String) : Sprintln [a] = a ++ "\n" := rfl

theorem Sprintln_two (a b : String) : Sprintln [a, b] = a ++ " " ++ b ++ "\n" := by
  simp [Sprintln, String.append_assoc]

/-- The whole effect of `handleError`: the error lines, then exit code 1. -/
theorem handleError_eq (resp : Response) (t : Trace) :
    handleError resp t = (Ctl.exit 1, ⟨t.out ++ errorLines resp, t.requests⟩) := by
  unfold handleError errorLines
  by_cases h : resp.Error.Exception = "" ∧ resp.Error.Error = ""
  · have h2 : resp.Error.Error = "" ∧ resp.Error.Exception = "" := ⟨h.2, h.1⟩
    simp [h, h2, bind, Proc.bind, Println, osExit, Sprintln, String.append_assoc]
  · have h2 : ¬ (resp.Error.Error = "" ∧ resp.Error.Exception = "") := fun k => h ⟨k.2, k.1⟩
    simp [h, h2, bind, Proc.bind, Println, osExit, Sprintln, String.append_assoc]

/-- The whole effect of `terminateFunc`, by the outcome of its one request. -/
theorem terminateFunc_eq (g : Globals) (w : World) (t : Trace) :
    terminateFunc g w t =
      match w.Post (terminateRequest g) with
      | (_, some e) =>
        (Ctl.exit 1, ⟨t.out ++ [e ++ "\n"], t.requests ++ [terminateRequest g]⟩)
      | (resp, none) =>
        if resp.StatusCode = 200 then
          (Ctl.ret (), ⟨t.out ++ ["\x7b\x7d\n"], t.requests ++ [terminateRequest g]⟩)
        else
          (Ctl.exit 1, ⟨t.out ++ errorLines resp, t.requests ++ [terminateRequest g]⟩) := by
  have hreq : (((getRequest g).SetBody
        (Sprintf "\x7b\"jobId\": \"%s\", \"reason\": \"%s\"\x7d"
          [g.terminateJobID, g.terminateReason])).SetResult ResultTarget.AuthSuccess).Post w
      (Sprintf "%s/terminate_job" [g.url]) t =
      (Ctl.ret (w.Post (terminateRequest g)),
        ⟨t.out, t.requests ++ [terminateRequest g]⟩) := by
    simp only [Request.Post, getRequest, restyR, Request.SetBasicAuth, Request.SetError,
      Request.SetHeader, Request.SetBody, Request.SetResult, Sprintf_body,
      Sprintf_terminate_url, terminateRequest, List.nil_append]
  generalize w.Post (terminateRequest g) = p at hreq ⊢
  unfold terminateFunc
  simp only [bind, Proc.bind, hreq]
  rcases p with ⟨resp, _ | e⟩
  · by_cases hs : resp.StatusCode = 200
    · simp [hs, pure, Proc.pure, Proc.bind, Println, Sprintln]
    · simp [hs, pure, Proc.pure, Proc.bind, handleError_eq]
  · simp [Println, osExit, Proc.bind, Sprintln]

/-- The whole effect of `cancelFunc`, by the outcome of its one request. -/
theorem cancelFunc_eq (g : Globals) (w : World) (t : Trace) :
    cancelFunc g w t =
      match w.Post (cancelRequest g) with
      | (_, some e) =>
        (Ctl.exit 1, ⟨t.out ++ [e ++ "\n"], t.requests ++ [cancelRequest g]⟩)
      | (resp, none) =>
        if resp.StatusCode = 200 then
          (Ctl.ret (), ⟨t.out ++ ["\x7b\x7d\n"], t.requests ++ [cancelRequest g]⟩)
        else
          (Ctl.exit 1, ⟨t.out ++ errorLines resp, t.requests ++ [cancelRequest g]⟩) := by
  have hreq : (((getRequest g).SetBody
        (Sprintf "\x7b\"jobId\": \"%s\", \"reason\": \"%s\"\x7d"
          [g.cancelJobID, g.cancelReason])).SetResult ResultTarget.AuthSuccess).Post w
      (Sprintf "%s/terminate_job" [g.url]) t =
      (Ctl.ret (w.Post (cancelRequest g)),
        ⟨t.out, t.requests ++ [cancelRequest g]⟩) := by
    simp only [Request.Post, getRequest, restyR, Request.SetBasicAuth, Request.SetError,
      Request.SetHeader, Request.SetBody, Request.SetResult, Sprintf_body,
      Sprintf_terminate_url, cancelRequest, List.nil_append]
  generalize w.Post (cancelRequest g) = p at hreq ⊢
  unfold cancelFunc
  simp only [bind, Proc.bind, hreq]
  rcases p with ⟨resp, _ | e⟩
  · by_cases hs : resp.StatusCode = 200
    · simp [hs, pure, Proc.pure, Proc.bind, Println, Sprintln]
    · simp [hs, pure, Proc.pure, Proc.bind, handleError_eq]
  · simp [Println, osExit, Proc.bind, Sprintln]

/-- The whole effect of `submitFunc`, by the outcome of its one request. -/
theorem submitFunc_eq (g : Globals) (w : World) (t : Trace) :
    submitFunc g w t =
      match w.Post (submitRequest g w) with
      | (_, some e) =>
        (Ctl.exit 1,
          ⟨t.out ++ readErrorLines g w ++ [e ++ "\n"], t.requests ++ [submitRequest g w]⟩)
      | (resp, none) =>
        if resp.StatusCode = 200 then
          (Ctl.ret (),
            ⟨t.out ++ readErrorLines g w ++ [submitBlock resp.Result],
              t.requests ++ [submitRequest g w]⟩)
        else
          (Ctl.exit 1,
            ⟨t.out ++ readErrorLines g w ++ errorLines resp,
              t.requests ++ [submitRequest g w]⟩) := by
  have hreq : ∀ t1 : Trace, (((getRequest g).SetBody
        (w.ReadFile g.submitCliInputJSON).1).SetResult ResultTarget.SubmitSuccess).Post w
      (Sprintf "%s/submit_job" [g.url]) t1 =
      (Ctl.ret (w.Post (submitRequest g w)),
        ⟨t1.out, t1.requests ++ [submitRequest g w]⟩) := by
    intro t1
    simp only [Request.Post, getRequest, restyR, Request.SetBasicAuth, Request.SetError,
      Request.SetHeader, Request.SetBody, Request.SetResult,
      Sprintf_submit_url, submitRequest, List.nil_append]
  generalize w.Post (submitRequest g w) = p at hreq ⊢
  unfold submitFunc readErrorLines
  rcases hf : w.ReadFile g.submitCliInputJSON with ⟨b, _ | re⟩
  · rw [hf] at hreq
    simp only [bind, Proc.bind, pure, Proc.pure, hreq]
    rcases p with ⟨resp, _ | e⟩
    · by_cases hs : resp.StatusCode = 200
      · simp [hs, pure, Proc.pure, Proc.bind, Printf, Sprintf_block]
      · simp [hs, pure, Proc.pure, Proc.bind, handleError_eq]
    · simp [Println, osExit, Proc.bind, Sprintln]
  · rw [hf] at hreq
    simp only [bind, Proc.bind, pure, Proc.pure, Println, hreq]
    rcases p with ⟨resp, _ | e⟩
    · by_cases hs : resp.StatusCode = 200
      · simp [hs, pure, Proc.pure, Proc.bind, Printf, Sprintf_block, Sprintln]
      · simp [hs, pure, Proc.pure, Proc.bind, handleError_eq, Sprintln]
    · simp [Println, osExit, Proc.bind, Sprintln]

/-- The whole effect of `main`: stop on a credential failure, panic when the
certificate bundle does not parse on a Mac, otherwise run the selected
function on the settled package-level variables. -/
theorem main_eq (cmd : Command) (w : World) (t : Trace) :
    main cmd w t =
      match getAwsCreds w with
      | Except.error err => (Ctl.exit 1, ⟨t.out ++ [err ++ "\n"], t.requests⟩)
      | Except.ok creds0 =>
        if w.GOOS = "darwin" ∧ w.AppendCertsFromPEM rootPEM = false then
          (Ctl.panicked "failed to parse root certificate", t)
        else cmd.func (mainGlobals cmd w creds0) w t := by
  unfold main mainGlobals serverURL
  rcases hc : getAwsCreds w with err | creds0
  · simp [bind, Proc.bind, Println, osExit, Sprintln]
  · by_cases hd : w.GOOS = "darwin"
    · cases hb : w.AppendCertsFromPEM rootPEM
      · simp [hd, hb, bind, Proc.bind, goPanic]
      · cases hl : w.LookupEnv "FREDHUTCH_BATCH_WRAPPER_SERVER_URL" <;>
          simp [hd, hb, hl, bind, Proc.bind, pure, Proc.pure]
    · cases hl : w.LookupEnv "FREDHUTCH_BATCH_WRAPPER_SERVER_URL" <;>
        simp [hd, hl, bind, Proc.bind, pure, Proc.pure]

/-- With credentials resolved and the trust store set up, `main` is the
selected function. -/
theorem main_eq_func (cmd : Command) (w : World) (creds : AwsCreds)
    (hc : getAwsCreds w = Except.ok creds)
    (htls : w.GOOS = "darwin" → w.AppendCertsFromPEM rootPEM = true) :
    main cmd w = cmd.func (mainGlobals cmd w creds) w := by
  funext t
  rw [main_eq, hc]
  by_cases hd : w.GOOS = "darwin"
  · simp [hd, htls hd]
  · simp [hd]

/-- The run of each selected function, by the outcome of its one request. -/
theorem func_run_eq (cmd : Command) (g : Globals) (w : World) :
    (cmd.func g w).run =
      match w.Post (cmd.request g w) with
      | (_, some e) => ⟨cmd.preLines g w ++ [e ++ "\n"], [cmd.request g w], 1⟩
      | (resp, none) =>
        if resp.StatusCode = 200 then
          ⟨cmd.preLines g w ++ [cmd.successOutput resp], [cmd.request g w], 0⟩
        else ⟨cmd.preLines g w ++ errorLines resp, [cmd.request g w], 1⟩ := by
  cases cmd with
  | cancel j r =>
    simp only [Proc.run, Command.func, cancelFunc_eq, Command.request, Command.preLines,
      Command.successOutput]
    rcases w.Post (cancelRequest g) with ⟨resp, _ | e⟩
    · by_cases hs : resp.StatusCode = 200 <;> simp [hs, Ctl.exitCode]
    · simp [Ctl.exitCode]
  | terminate j r =>
    simp only [Proc.run, Command.func, terminateFunc_eq, Command.request, Command.preLines,
      Command.successOutput]
    rcases w.Post (terminateRequest g) with ⟨resp, _ | e⟩
    · by_cases hs : resp.StatusCode = 200 <;> simp [hs, Ctl.exitCode]
    · simp [Ctl.exitCode]
  | submit path =>
    simp only [Proc.run, Command.func, submitFunc_eq, Command.request, Command.preLines,
      Command.successOutput]
    rcases w.Post (submitRequest g w) with ⟨resp, _ | e⟩
    · by_cases hs : resp.StatusCode = 200 <;> simp [hs, Ctl.exitCode]
    · simp [Ctl.exitCode]

/-- A run of plain characters up to a quote is read as itself. -/
theorem jsonChars_plain (s rest : List Char) (h : ∀ c ∈ s, jsonPlain c) :
    jsonChars (s ++ '"' :: rest) = some (s, rest) := by
  induction s with
  | nil => simp [jsonChars]
  | cons c s ih =>
    have hc := h c (List.mem_cons_self _ _)
    have ih1 := ih (fun d hd => h d (List.mem_cons_of_mem _ hd))
    obtain ⟨h1, h2, h3⟩ := hc
    rw [List.cons_append, jsonChars]
    · simp [ih1, Nat.not_lt.mpr h3]
    · exact h1
    all_goals (intros; simp_all)

/-- Where the pasted body is right: when neither the job ID nor the reason
holds a quote, a backslash or a control character, the body of `cancelFunc`
and `terminateFunc` reads back as exactly the two members `jobId` and
`reason` with the given values. -/
theorem parseStringObject_plain_body (j r : String) (hj : ∀ c ∈ j.data, jsonPlain c)
    (hr : ∀ c ∈ r.data, jsonPlain c) :
    parseStringObject ("\x7b\"jobId\": \"" ++ j ++ "\", \"reason\": \"" ++ r ++ "\"\x7d") =
      some [("jobId", j), ("reason", r)] := by
  have hk1 : ∀ rest, jsonChars ('j' :: 'o' :: 'b' :: 'I' :: 'd' :: '"' :: rest) =
      some (['j', 'o', 'b', 'I', 'd'], rest) := fun rest =>
    jsonChars_plain ['j', 'o', 'b', 'I', 'd'] rest (by decide)
  have hk2 : ∀ rest, jsonChars ('r' :: 'e' :: 'a' :: 's' :: 'o' :: 'n' :: '"' :: rest) =
      some (['r', 'e', 'a', 's', 'o', 'n'], rest) := fun rest =>
    jsonChars_plain ['r', 'e', 'a', 's', 'o', 'n'] rest (by decide)
  have hj2 := fun rest => jsonChars_plain j.data rest hj
  have hr2 := fun rest => jsonChars_plain r.data rest hr
  simp [parseStringObject, String.data_append, jsonSkip, jsonWhitespace, jsonMembers,
    jsonString, hk1, hk2, hj2, hr2]

/-! ## The claims -/

/-- Claim C1: for a response whose error object has both `error` and
`exception` blank, `handleError` writes exactly the one line
`Got error: <raw body>`, which is none of the ServiceError lines, and ends the
process with exit code 1.  `handleError` never looks at the status, so this
holds in particular for every non-200 response, the only ones it is called
on. -/
theorem handleError_blank_unexpectedStatus (resp : Response) (t : Trace)
    (herr : resp.Error.Error = "") (hexc : resp.Error.Exception = "") :
    handleError resp t =
        (Ctl.exit 1, ⟨t.out ++ ["Got error: " ++ resp.Body ++ "\n"], t.requests⟩) ∧
      ¬ "Wrapper threw an error.".data <+: ("Got error: " ++ resp.Body ++ "\n").data ∧
      ¬ "Exception:".data <+: ("Got error: " ++ resp.Body ++ "\n").data ∧
      ¬ "Message:".data <+: ("Got error: " ++ resp.Body ++ "\n").data := by
  refine ⟨?_, ?_, ?_, ?_⟩
  · rw [handleError_eq]
    simp [errorLines, herr, hexc]
  · simp [String.data_append]
  · simp [String.data_append]
  · simp [String.data_append]

/-- Scenario 4 as an instance of C1: status 500 with an empty body. -/
theorem handleError_blank_unexpectedStatus_witness :
    blank500.StatusCode ≠ 200 ∧ blank500.Error.Error = "" ∧ blank500.Error.Exception = "" ∧
      handleError blank500 ⟨[], []⟩ = (Ctl.exit 1, ⟨["Got error: \n"], []⟩) :=
  ⟨by decide, rfl, rfl, (handleError_blank_unexpectedStatus blank500 ⟨[], []⟩ rfl rfl).1⟩

/-- Claim C2: for a response whose error object has at least one of `error` and
`exception` non-empty, `handleError` writes `Wrapper threw an error.`, then the
exception field, then the message field, each as received; none of the lines
is the raw-body `Got error:` line; and the process ends with exit code 1. -/
theorem handleError_filled_serviceError (resp : Response) (t : Trace)
    (h : resp.Error.Error ≠ "" ∨ resp.Error.Exception ≠ "") :
    handleError resp t =
        (Ctl.exit 1,
          ⟨t.out ++ ["Wrapper threw an error.\n",
              "Exception: " ++ resp.Error.Exception ++ "\n",
              "Message: " ++ resp.Error.Error ++ "\n"], t.requests⟩) ∧
      ¬ "Got error:".data <+: "Wrapper threw an error.\n".data ∧
      ¬ "Got error:".data <+: ("Exception: " ++ resp.Error.Exception ++ "\n").data ∧
      ¬ "Got error:".data <+: ("Message: " ++ resp.Error.Error ++ "\n").data := by
  refine ⟨?_, ?_, ?_, ?_⟩
  · rw [handleError_eq]
    have hn : ¬ (resp.Error.Error = "" ∧ resp.Error.Exception = "") := by
      rintro ⟨h1, h2⟩
      rcases h with h | h
      · exact h h1
      · exact h h2
    simp [errorLines, hn]
  · simp
  · simp [String.data_append]
  · simp [String.data_append]

/-- The tie-break case as an instance of C2: only `error` is filled in. -/
theorem handleError_filled_serviceError_witness :
    (partial403.Error.Error ≠ "" ∨ partial403.Error.Exception ≠ "") ∧
      handleError partial403 ⟨[], []⟩ =
        (Ctl.exit 1,
          ⟨["Wrapper threw an error.\n", "Exception: \n", "Message: not authorized\n"], []⟩) :=
  ⟨Or.inl (by decide),
    (handleError_filled_serviceError partial403 ⟨[], []⟩ (Or.inl (by decide))).1⟩

/-- Claim C3: for every job ID, reason, base URL and credentials, `cancelFunc`
and `terminateFunc` hand the HTTP client one and the same request: the same
body, built from the job ID and the reason, POSTed to the base URL followed by
`/terminate_job`.  Given the same answer to it they leave the same output
and the same ending, and so do the two whole programs. -/
theorem cancel_terminate_same (j r u : String) (creds : AwsCreds) (w1 w2 : World) (t : Trace) :
    cancelRequest (((Command.cancel j r).globals.setUrl u).setCreds creds) =
        terminateRequest (((Command.terminate j r).globals.setUrl u).setCreds creds) ∧
      (terminateRequest (((Command.terminate j r).globals.setUrl u).setCreds creds)).Body =
        "\x7b\"jobId\": \"" ++ j ++ "\", \"reason\": \"" ++ r ++ "\"\x7d" ∧
      (terminateRequest (((Command.terminate j r).globals.setUrl u).setCreds creds)).URL =
        u ++ "/terminate_job" ∧
      (terminateRequest (((Command.terminate j r).globals.setUrl u).setCreds creds)).Method =
        "POST" ∧
      (cancelFunc (((Command.cancel j r).globals.setUrl u).setCreds creds) w1 t).2.requests =
        t.requests ++ [cancelRequest (((Command.cancel j r).globals.setUrl u).setCreds creds)] ∧
      (terminateFunc (((Command.terminate j r).globals.setUrl u).setCreds creds) w2 t).2.requests =
        t.requests ++
          [terminateRequest (((Command.terminate j r).globals.setUrl u).setCreds creds)] ∧
      (w1.Post (cancelRequest (((Command.cancel j r).globals.setUrl u).setCreds creds)) =
          w2.Post (terminateRequest (((Command.terminate j r).globals.setUrl u).setCreds creds)) →
        cancelFunc (((Command.cancel j r).globals.setUrl u).setCreds creds) w1 t =
          terminateFunc (((Command.terminate j r).globals.setUrl u).setCreds creds) w2 t) ∧
      (main (Command.cancel j r) w1).run = (main (Command.terminate j r) w1).run := by
  have hreq : cancelRequest (((Command.cancel j r).globals.setUrl u).setCreds creds) =
      terminateRequest (((Command.terminate j r).globals.setUrl u).setCreds creds) := rfl
  have hfun : ∀ (g1 g2 : Globals) (wa wb : World) (t1 : Trace),
      cancelRequest g1 = terminateRequest g2 →
      wa.Post (cancelRequest g1) = wb.Post (terminateRequest g2) →
      cancelFunc g1 wa t1 = terminateFunc g2 wb t1 := by
    intro g1 g2 wa wb t1 h1 h2
    rw [cancelFunc_eq, terminateFunc_eq, h2, h1]
  refine ⟨hreq, rfl, rfl, rfl, ?_, ?_, ?_, ?_⟩
  · rw [cancelFunc_eq]
    rcases w1.Post _ with ⟨resp, _ | e⟩
    · by_cases hs : resp.StatusCode = 200 <;> simp [hs]
    · simp
  · rw [terminateFunc_eq]
    rcases w2.Post _ with ⟨resp, _ | e⟩
    · by_cases hs : resp.StatusCode = 200 <;> simp [hs]
    · simp
  · intro h
    exact hfun _ _ _ _ _ hreq h
  · have hm : main (Command.cancel j r) w1 ⟨[], []⟩ = main (Command.terminate j r) w1 ⟨[], []⟩ := by
      rw [main_eq, main_eq]
      rcases getAwsCreds w1 with err | creds0
      · rfl
      · by_cases hp : w1.GOOS = "darwin" ∧ w1.AppendCertsFromPEM rootPEM = false
        · simp [hp]
        · simp only [hp, if_false, Command.func]
          exact hfun _ _ _ _ _ rfl rfl
    simp only [Proc.run, hm]

/-- An instance of C3: `abc` with reason `no longer needed`, answered with
status 200 both times. -/
theorem cancel_terminate_same_witness :
    (exampleWorld ("", none) (accepted200, none)).Post
          (cancelRequest
            (((Command.cancel "abc" "no longer needed").globals.setUrl "https://h").setCreds
              exampleCreds)) =
        (exampleWorld ("", none) (accepted200, none)).Post
          (terminateRequest
            (((Command.terminate "abc" "no longer needed").globals.setUrl "https://h").setCreds
              exampleCreds)) ∧
      cancelFunc
          (((Command.cancel "abc" "no longer needed").globals.setUrl "https://h").setCreds
            exampleCreds)
          (exampleWorld ("", none) (accepted200, none)) ⟨[], []⟩ =
        terminateFunc
          (((Command.terminate "abc" "no longer needed").globals.setUrl "https://h").setCreds
            exampleCreds)
          (exampleWorld ("", none) (accepted200, none)) ⟨[], []⟩ :=
  ⟨rfl,
    (cancel_terminate_same "abc" "no longer needed" "https://h" exampleCreds
      (exampleWorld ("", none) (accepted200, none))
      (exampleWorld ("", none) (accepted200, none)) ⟨[], []⟩).2.2.2.2.2.2.1 rfl⟩

/-- Claim C5: for each of submit, cancel and terminate, when the POST returns a
transport error the run writes that error (after the read-error line, if
submit had one) and ends with exit code 1, with nothing else written; the
response plays no part: replacing every response of the world by any other
leaves the run unchanged.  When `main` has resolved the credentials and set up
the trust store, the run of the program is the run of the selected
function. -/
theorem transport_error_exits (cmd : Command) (g : Globals) (w : World) (e : String)
    (answer : Request → Response) (creds : AwsCreds)
    (hpost : (w.Post (cmd.request g w)).2 = some e) :
    (cmd.func g w).run = ⟨cmd.preLines g w ++ [e ++ "\n"], [cmd.request g w], 1⟩ ∧
      (cmd.func g (w.withResponses answer)).run = (cmd.func g w).run ∧
      (getAwsCreds w = Except.ok creds →
        (w.GOOS = "darwin" → w.AppendCertsFromPEM rootPEM = true) →
        g = mainGlobals cmd w creds → (main cmd w).run = (cmd.func g w).run) := by
  have key : ∀ w0 : World, (w0.Post (cmd.request g w0)).2 = some e →
      (cmd.func g w0).run = ⟨cmd.preLines g w0 ++ [e ++ "\n"], [cmd.request g w0], 1⟩ := by
    intro w0 h0
    rw [func_run_eq]
    rcases hp : w0.Post (cmd.request g w0) with ⟨resp, err⟩
    rw [hp] at h0
    simp only at h0
    subst h0
    rfl
  have hreq : cmd.request g (w.withResponses answer) = cmd.request g w := by
    cases cmd <;> rfl
  have hpre : cmd.preLines g (w.withResponses answer) = cmd.preLines g w := by
    cases cmd <;> rfl
  refine ⟨key w hpost, ?_, ?_⟩
  · rw [key w hpost, key (w.withResponses answer) (by rw [hreq]; exact hpost), hreq, hpre]
  · intro hc htls hg
    rw [hg, main_eq_func cmd w creds hc htls]

/-- An instance of C5: terminate when the connection is refused. -/
theorem transport_error_exits_witness :
    ((unreachableWorld "connection refused").Post
          ((Command.terminate "abc" "bad input").request
            (mainGlobals (Command.terminate "abc" "bad input")
              (unreachableWorld "connection refused") exampleCreds)
            (unreachableWorld "connection refused"))).2 = some "connection refused" ∧
      ((Command.terminate "abc" "bad input").func
          (mainGlobals (Command.terminate "abc" "bad input")
            (unreachableWorld "connection refused") exampleCreds)
          (unreachableWorld "connection refused")).run =
        ⟨(Command.terminate "abc" "bad input").preLines
            (mainGlobals (Command.terminate "abc" "bad input")
              (unreachableWorld "connection refused") exampleCreds)
            (unreachableWorld "connection refused") ++ ["connection refused" ++ "\n"],
          [(Command.terminate "abc" "bad input").request
            (mainGlobals (Command.terminate "abc" "bad input")
              (unreachableWorld "connection refused") exampleCreds)
            (unreachableWorld "connection refused")], 1⟩ :=
  ⟨rfl,
    (transport_error_exits (Command.terminate "abc" "bad input")
      (mainGlobals (Command.terminate "abc" "bad input")
        (unreachableWorld "connection refused") exampleCreds)
      (unreachableWorld "connection refused") "connection refused" (fun _ => accepted200)
      exampleCreds rfl).1⟩

/-- Claim C6: for every parsed command, if `getAwsCreds` fails, the program
writes the failure message and nothing else, ends with exit code 1, and has
handed no request to the HTTP client; the message is one of the two that
`getAwsCreds` builds. -/
theorem creds_failure_no_request (cmd : Command) (w : World) (e : String)
    (h : getAwsCreds w = Except.error e) :
    (main cmd w).run = ⟨[e ++ "\n"], [], 1⟩ ∧
      (e = "failed to load default AWS config" ∨ e = "failed to load AWS credentials") := by
  refine ⟨?_, ?_⟩
  · simp only [Proc.run, main_eq, h]
    rfl
  · unfold getAwsCreds at h
    rcases hl : w.LoadDefaultAWSConfig with e1 | cfg
    · rw [hl] at h
      simp only [Except.error.injEq] at h
      exact Or.inl h.symm
    · rw [hl] at h
      simp only at h
      rcases hr : cfg.Retrieve with e2 | c
      · rw [hr] at h
        simp only [Except.error.injEq] at h
        exact Or.inr h.symm
      · rw [hr] at h
        simp at h

/-- Scenario 5 as an instance of C6: the provider chain yields nothing. -/
theorem creds_failure_no_request_witness :
    getAwsCreds noCredsWorld = Except.error "failed to load AWS credentials" ∧
      (main (Command.submit "job.json") noCredsWorld).run =
        ⟨["failed to load AWS credentials" ++ "\n"], [], 1⟩ :=
  ⟨rfl,
    (creds_failure_no_request (Command.submit "job.json") noCredsWorld
      "failed to load AWS credentials" rfl).1⟩

/-- Claim C8: when the input file is read successfully with content `b`,
`submitFunc` hands the HTTP client one request whose body is exactly `b` and
whose target is the base URL followed by `/submit_job`. -/
theorem submit_body_verbatim (g : Globals) (w : World) (t : Trace) (b : String)
    (h : w.ReadFile g.submitCliInputJSON = (b, none)) :
    (submitFunc g w t).2.requests =
      t.requests ++
        [⟨some (g.creds.AccessKey, g.creds.SecretKey), true,
          [("Content-type", "application/json")], b, some ResultTarget.SubmitSuccess, "POST",
          g.url ++ "/submit_job"⟩] := by
  have hreq : submitRequest g w =
      ⟨some (g.creds.AccessKey, g.creds.SecretKey), true,
        [("Content-type", "application/json")], b, some ResultTarget.SubmitSuccess, "POST",
        g.url ++ "/submit_job"⟩ := by
    simp [submitRequest, h]
  rw [submitFunc_eq, hreq]
  rcases w.Post _ with ⟨resp, _ | e⟩
  · by_cases hs : resp.StatusCode = 200 <;> simp [hs]
  · simp

/-- Scenario 1 as an instance of C8: the job document goes out as it is. -/
theorem submit_body_verbatim_witness :
    (exampleWorld ("\x7b\"jobDefinition\":\"demo\"\x7d", none) (accepted200, none)).ReadFile
          (mainGlobals (Command.submit "job.json")
            (exampleWorld ("\x7b\"jobDefinition\":\"demo\"\x7d", none) (accepted200, none))
            exampleCreds).submitCliInputJSON =
        ("\x7b\"jobDefinition\":\"demo\"\x7d", none) ∧
      (submitFunc
          (mainGlobals (Command.submit "job.json")
            (exampleWorld ("\x7b\"jobDefinition\":\"demo\"\x7d", none) (accepted200, none))
            exampleCreds)
          (exampleWorld ("\x7b\"jobDefinition\":\"demo\"\x7d", none) (accepted200, none))
          ⟨[], []⟩).2.requests =
        [⟨some ("AKID", "SECRET"), true, [("Content-type", "application/json")],
          "\x7b\"jobDefinition\":\"demo\"\x7d", some ResultTarget.SubmitSuccess, "POST",
          "https://batch-dashboard.fhcrc.org/submit_job"⟩] :=
  ⟨rfl,
    submit_body_verbatim
      (mainGlobals (Command.submit "job.json")
        (exampleWorld ("\x7b\"jobDefinition\":\"demo\"\x7d", none) (accepted200, none))
        exampleCreds)
      (exampleWorld ("\x7b\"jobDefinition\":\"demo\"\x7d", none) (accepted200, none))
      ⟨[], []⟩ "\x7b\"jobDefinition\":\"demo\"\x7d" rfl⟩

/-- Claim C10: the selected function hands the HTTP client exactly one request,
a POST to the base URL followed by `/submit_job` (submit) or `/terminate_job`
(cancel and terminate), whatever the outcome; no run of the program issues
more than one request; and a run in which the credentials resolve and the
trust store is set up issues exactly that one, to the URL `main` settled
on. -/
theorem exactly_one_post (cmd : Command) (g : Globals) (w : World) (creds : AwsCreds)
    (hc : getAwsCreds w = Except.ok creds) :
    (cmd.func g w).run.requests = [cmd.request g w] ∧
      (cmd.request g w).Method = "POST" ∧
      (cmd.request g w).URL = g.url ++ cmd.endpoint ∧
      (main cmd w).run.requests.length ≤ 1 ∧
      ((w.GOOS = "darwin" → w.AppendCertsFromPEM rootPEM = true) →
        (main cmd w).run.requests = [cmd.request (mainGlobals cmd w creds) w] ∧
          (cmd.request (mainGlobals cmd w creds) w).URL = serverURL w ++ cmd.endpoint) := by
  have hone : ∀ g0 : Globals, (cmd.func g0 w).run.requests = [cmd.request g0 w] := by
    intro g0
    rw [func_run_eq]
    rcases w.Post (cmd.request g0 w) with ⟨resp, _ | e⟩
    · by_cases hs : resp.StatusCode = 200 <;> simp [hs]
    · simp
  have hurl : ∀ g0 : Globals, (cmd.request g0 w).URL = g0.url ++ cmd.endpoint := by
    intro g0
    cases cmd <;> rfl
  refine ⟨hone g, by cases cmd <;> rfl, hurl g, ?_, ?_⟩
  · by_cases hp : w.GOOS = "darwin" ∧ w.AppendCertsFromPEM rootPEM = false
    · simp [Proc.run, main_eq, hc, hp]
    · have hm : main cmd w ⟨[], []⟩ = cmd.func (mainGlobals cmd w creds) w ⟨[], []⟩ := by
        rw [main_eq, hc]
        simp only [hp, if_false]
      have h1 := hone (mainGlobals cmd w creds)
      simp only [Proc.run] at h1 ⊢
      rw [hm, h1]
      simp
  · intro htls
    rw [main_eq_func cmd w creds hc htls]
    exact ⟨hone _, hurl _⟩

/-- An instance of C10: cancel answered with status 403 still issues its one
request. -/
theorem exactly_one_post_witness :
    getAwsCreds (exampleWorld ("", none) (partial403, none)) = Except.ok exampleCreds ∧
      ((exampleWorld ("", none) (partial403, none)).GOOS = "darwin" →
        (exampleWorld ("", none) (partial403, none)).AppendCertsFromPEM rootPEM = true) ∧
      (main (Command.cancel "abc" "no longer needed")
          (exampleWorld ("", none) (partial403, none))).run.requests =
        [(Command.cancel "abc" "no longer needed").request
          (mainGlobals (Command.cancel "abc" "no longer needed")
            (exampleWorld ("", none) (partial403, none)) exampleCreds)
          (exampleWorld ("", none) (partial403, none))] :=
  ⟨rfl, fun _ => rfl,
    ((exactly_one_post (Command.cancel "abc" "no longer needed")
      (mainGlobals (Command.cancel "abc" "no longer needed")
        (exampleWorld ("", none) (partial403, none)) exampleCreds)
      (exampleWorld ("", none) (partial403, none)) exampleCreds rfl).2.2.2.2 (fun _ => rfl)).1⟩

/-- What `submitFunc` does after a failed read, in general: it writes the read
error and goes on; it hands the HTTP client one POST to the base URL followed
by `/submit_job` whose body is the bytes `b` that `ReadFile` returned with the
error, and the run ends as the answer to that request decides. -/
theorem submit_read_failure_continues (g : Globals) (w : World) (b e : String)
    (h : w.ReadFile g.submitCliInputJSON = (b, some e)) :
    (submitRequest g w).Body = b ∧
      (submitRequest g w).Method = "POST" ∧
      (submitRequest g w).URL = g.url ++ "/submit_job" ∧
      (submitFunc g w).run =
        match w.Post (submitRequest g w) with
        | (_, some e2) => ⟨[e ++ "\n", e2 ++ "\n"], [submitRequest g w], 1⟩
        | (resp, none) =>
          if resp.StatusCode = 200 then
            ⟨[e ++ "\n", submitBlock resp.Result], [submitRequest g w], 0⟩
          else ⟨(e ++ "\n") :: errorLines resp, [submitRequest g w], 1⟩ := by
  have hpre : readErrorLines g w = [e ++ "\n"] := by
    simp [readErrorLines, h]
  refine ⟨by simp [submitRequest, h], rfl, rfl, ?_⟩
  have hrun := func_run_eq (Command.submit g.submitCliInputJSON) g w
  simp only [Command.func, Command.request, Command.preLines, Command.successOutput, hpre]
    at hrun
  rw [hrun]
  rcases w.Post (submitRequest g w) with ⟨resp, _ | e2⟩
  · by_cases hs : resp.StatusCode = 200 <;> simp [hs]
  · simp

/-- Claim C9 against the code: after `ReadFile` fails, `submitFunc` writes the
error but, unlike every other error check of the program, does not exit; it
sends whatever bytes came back with the error.  When the read breaks off
part-way those bytes are the part read so far, so the body is not empty, and
the run still ends with the success block and exit code 0; when the file
cannot be opened the body is empty and the run ends the same way. -/
theorem submit_read_failure_not_fatal :
    partialReadWorld.ReadFile "job.json" =
        ("\x7b\"jobDef", some "read job.json: input/output error") ∧
      (main (Command.submit "job.json") partialReadWorld).run.out =
        ["read job.json: input/output error\n",
          "\x7b\n  \"jobId\": \"123\"\n  \"jobName\": \"demo-job\"\n \x7d\n "] ∧
      (main (Command.submit "job.json") partialReadWorld).run.requests.map Request.Body =
        ["\x7b\"jobDef"] ∧
      (main (Command.submit "job.json") partialReadWorld).run.requests.map Request.Body ≠
        [""] ∧
      (main (Command.submit "job.json") partialReadWorld).run.exitCode = 0 ∧
      openFailsWorld.ReadFile "job.json" = ("", some "open job.json: permission denied") ∧
      (main (Command.submit "job.json") openFailsWorld).run.out =
        ["open job.json: permission denied\n",
          "\x7b\n  \"jobId\": \"123\"\n  \"jobName\": \"demo-job\"\n \x7d\n "] ∧
      (main (Command.submit "job.json") openFailsWorld).run.requests.map Request.Body = [""] ∧
      (main (Command.submit "job.json") openFailsWorld).run.exitCode = 0 := by
  refine ⟨rfl, ?_, ?_, ?_, ?_, rfl, ?_, ?_, ?_⟩ <;> decide

/-- Claim C7 fails on the code: the body is built by pasting the job ID and the
reason between quotes, without escaping.  With the reason `job "demo" hung`
the body of `cancelFunc` and of `terminateFunc` is not a JSON text at all, and
with the reason `C:\temp` it is a JSON text whose `reason` is a different
string (the two characters `\t` are read as a tab); a job ID and reason that
need no escaping are read back as given. -/
theorem cancel_terminate_body_unescaped :
    (cancelFunc (mainGlobals (Command.cancel "abc" "job \"demo\" hung")
          (exampleWorld ("", none) (accepted200, none)) exampleCreds)
        (exampleWorld ("", none) (accepted200, none)) ⟨[], []⟩).2.requests.map Request.Body =
        ["\x7b\"jobId\": \"abc\", \"reason\": \"job \"demo\" hung\"\x7d"] ∧
      (terminateFunc (mainGlobals (Command.terminate "abc" "job \"demo\" hung")
          (exampleWorld ("", none) (accepted200, none)) exampleCreds)
        (exampleWorld ("", none) (accepted200, none)) ⟨[], []⟩).2.requests.map Request.Body =
        ["\x7b\"jobId\": \"abc\", \"reason\": \"job \"demo\" hung\"\x7d"] ∧
      parseStringObject "\x7b\"jobId\": \"abc\", \"reason\": \"job \"demo\" hung\"\x7d" =
        none ∧
      (terminateRequest (mainGlobals (Command.terminate "abc" "C:\\temp")
          (exampleWorld ("", none) (accepted200, none)) exampleCreds)).Body =
        "\x7b\"jobId\": \"abc\", \"reason\": \"C:\\temp\"\x7d" ∧
      parseStringObject "\x7b\"jobId\": \"abc\", \"reason\": \"C:\\temp\"\x7d" =
        some [("jobId", "abc"), ("reason", "C:\temp")] ∧
      parseStringObject
          (terminateRequest (mainGlobals (Command.terminate "abc" "no longer needed")
            (exampleWorld ("", none) (accepted200, none)) exampleCreds)).Body =
        some [("jobId", "abc"), ("reason", "no longer needed")] := by
  refine ⟨?_, ?_, ?_, ?_, ?_, ?_⟩ <;> decide

end BatchWrapper
